import Mathlib

/-!
Verification of the chat panel and multiline text input excerpted from the
abstreet front-end.  The Rust sources embedded here are
`widgetry/src/widgets/multiline_text_box.rs` and
`apps/game/src/sandbox/chat.rs`.  Strings are modelled with Lean strings;
the cursor is a character index (the Rust code uses byte offsets, which agree
on ASCII content); the `to_lowercase`, `trim` and `contains` operations of
Rust are modelled by explicit char-list functions below.
-/

namespace AbstChat

/-- Model of Rust `str::to_lowercase`, restricted to one-to-one lowering
(faithful on ASCII). -/
def toLowerStr (s : String) : String :=
  ⟨s.data.map Char.toLower⟩

/-- Char list with leading and trailing whitespace removed: model of the
char-boundary behaviour of Rust `str::trim`. -/
def trimList (l : List Char) : List Char :=
  ((l.dropWhile Char.isWhitespace).reverse.dropWhile Char.isWhitespace).reverse

/-- Model of Rust `str::trim`. -/
def trimStr (s : String) : String :=
  ⟨trimList s.data⟩

/-- Model of Rust `str::contains(pat)`: `pat` occurs as a contiguous
substring of `s`. -/
def containsStr (s pat : String) : Bool :=
  decide (List.IsInfix pat.data s.data)

/-! ## MultilineTextBox (`widgetry/src/widgets/multiline_text_box.rs`)

Only the editing state is modelled: `text` and `cursor_x`.  Focus handling,
layout and drawing talk to the host toolkit and carry no buffer state.
-/

/-- The editable state of `MultilineTextBox`: the `text` and `cursor_x`
fields of the Rust struct. -/
structure MultilineTextBox where
  text : List Char
  cursor_x : Nat
  deriving DecidableEq

/-- `MultilineTextBox::new`: keeps the prefilled content and puts the cursor
at `prefilled.len()`. -/
def mkMultilineTextBox (prefilled : List Char) : MultilineTextBox :=
  { text := prefilled, cursor_x := prefilled.length }

/-- `Key::LeftArrow` arm of `MultilineTextBox::event`. -/
def moveLeft (b : MultilineTextBox) : MultilineTextBox :=
  if 0 < b.cursor_x then { b with cursor_x := b.cursor_x - 1 } else b

/-- `Key::RightArrow` arm of `MultilineTextBox::event`. -/
def moveRight (b : MultilineTextBox) : MultilineTextBox :=
  { b with cursor_x := min (b.cursor_x + 1) b.text.length }

/-- `Key::Backspace` arm of `MultilineTextBox::event`. -/
def deleteBackward (b : MultilineTextBox) : MultilineTextBox :=
  if 0 < b.cursor_x then
    { b with text := b.text.eraseIdx (b.cursor_x - 1), cursor_x := b.cursor_x - 1 }
  else b

/-- Character-insertion arm of `MultilineTextBox::event` (any key that
translates to a char). -/
def insertChar (b : MultilineTextBox) (c : Char) : MultilineTextBox :=
  { b with text := b.text.insertIdx b.cursor_x c, cursor_x := b.cursor_x + 1 }

/-- `Key::Enter` arm of `MultilineTextBox::event`: inserts a newline at the
cursor. -/
def insertNewline (b : MultilineTextBox) : MultilineTextBox :=
  { b with text := b.text.insertIdx b.cursor_x '\n', cursor_x := b.cursor_x + 1 }

/-- `MultilineTextBox::get_text`. -/
def get_text (b : MultilineTextBox) : List Char :=
  b.text

/-- `MultilineTextBox::calculate_text`, up to the final rendering calls: the
display char list with the cursor glyph inserted.  The method takes `&self`,
so it is modelled as returning the display string together with the
(unchanged) state. -/
def calculate_text (b : MultilineTextBox) : List Char × MultilineTextBox :=
  let s := if b.cursor_x ≤ b.text.length
    then b.text.insertIdx b.cursor_x '|'
    else b.text ++ ['|']
  (s, b)

/-- One text-editing operation of the widget. -/
inductive EditOp where
  | insertChar (c : Char)
  | insertNewline
  | deleteBackward
  | moveLeft
  | moveRight
  deriving DecidableEq

/-- Apply one `EditOp` to the buffer. -/
def applyOp (b : MultilineTextBox) : EditOp → MultilineTextBox
  | .insertChar c => insertChar b c
  | .insertNewline => insertNewline b
  | .deleteBackward => deleteBackward b
  | .moveLeft => moveLeft b
  | .moveRight => moveRight b

/-- Apply a sequence of `EditOp`s left to right. -/
def applyOps (b : MultilineTextBox) (ops : List EditOp) : MultilineTextBox :=
  ops.foldl applyOp b

/-! ## Chatbox (`apps/game/src/sandbox/chat.rs`) -/

/-- Message roles. -/
inductive Role where
  | User
  | Assistant
  | System
  deriving DecidableEq

/-- Chat control directives. -/
inductive ChatCommand where
  | Pause
  | Resume
  deriving DecidableEq

/-- `parse_command`, translated clause by clause from the Rust source. -/
def parse_command (reply : String) : Option ChatCommand :=
  let lower := toLowerStr reply
  if containsStr lower "action: pause" || (trimStr lower == "pause")
      || containsStr lower "/pause" then
    some ChatCommand.Pause
  else if containsStr lower "action: resume" || (trimStr lower == "resume")
      || containsStr lower "/resume" || containsStr lower "/play" then
    some ChatCommand.Resume
  else
    none

/-- One message of the JSON request body (`DeepseekMessage`). -/
structure DeepseekMessage where
  role : String
  content : String
  deriving DecidableEq

/-- The role strings used when shaping the request in `fetch_deepseek_reply`. -/
def roleStr : Role → String
  | .User => "user"
  | .Assistant => "assistant"
  | .System => "system"

/-- The fixed system instruction pushed first in `fetch_deepseek_reply`. -/
def systemPrompt : String :=
  "You are controlling a traffic simulation. You may include lines like ACTION: pause or ACTION: resume. Keep replies short."

/-- The request message list built inside `fetch_deepseek_reply`: the fixed
system instruction, then `history.into_iter().rev().take(8).rev()` converted
to wire roles, then the user message. -/
def buildRequestMessages (history : List (Role × String)) (user_msg : String) :
    List DeepseekMessage :=
  [⟨"system", systemPrompt⟩]
    ++ ((history.reverse.take 8).reverse.map fun rc => ⟨roleStr rc.1, rc.2⟩)
    ++ [⟨"user", user_msg⟩]

/-- `fetch_deepseek_reply`.  The environment credential is `apiKey`; the
network round trip is abstracted by `net`, which maps the request message
list to either a transport/protocol failure or the list of choice contents
of the response body. -/
def fetch_deepseek_reply (apiKey : Option String)
    (net : List DeepseekMessage → Except String (List String))
    (history : List (Role × String)) (user_msg : String) : Except String String :=
  match apiKey with
  | none => .error "Missing DEEPSEEK_API_KEY env var"
  | some _ =>
    match net (buildRequestMessages history user_msg) with
    | .error e => .error e
    | .ok choices => .ok ((choices.head?).getD "(empty reply)")

/-- The controller state of `Chatbox`.  `pending` records whether
`pending_rx` holds a receiver; `input_prefill` is the input buffer content
(the code keeps it synced with the widget text before every dispatch). -/
structure Chatbox where
  messages : List (Role × String)
  input_prefill : String
  pending : Bool
  pending_command : Option ChatCommand
  width_pct : Nat
  height_pct : Nat
  deriving DecidableEq

/-- `Chatbox::new`. -/
def initChatbox : Chatbox :=
  { messages := [(Role.System, "Chatbox ready.")]
    input_prefill := "I want to evaluate how different ride-hailing vehicle quotas (from 1,000 to 10,000) affect road traffic congestion in Hong Kong."
    pending := false
    pending_command := none
    width_pct := 35
    height_pct := 35 }

/-- The `Clicked("send")` branch of `Chatbox::event` together with
`Chatbox::start_request`: trims the input; when it is empty or a request is
pending, nothing happens; otherwise the User message is appended, the input
cleared, the pending slot set, and one worker is spawned.  The second
component is the request message list the spawned worker builds (`none` when
no worker is spawned).  Note `start_request` clones `self.messages` after
the push, so the history handed to the worker already contains the new
message. -/
def submit (cb : Chatbox) : Chatbox × Option (List DeepseekMessage) :=
  let trimmed := trimStr cb.input_prefill
  if trimmed = "" ∨ cb.pending = true then
    (cb, none)
  else
    let cb2 : Chatbox :=
      { cb with
        messages := cb.messages ++ [(Role.User, trimmed)]
        input_prefill := ""
        pending := true }
    (cb2, some (buildRequestMessages cb2.messages trimmed))

/-- The inflight-response check at the top of `Chatbox::event`: `res` is
what `rx.try_recv()` yields this frame (`none` when no result arrived).
When no request is pending, the branch is skipped entirely. -/
def pollCompletion (cb : Chatbox) (res : Option (Except String String)) : Chatbox :=
  if cb.pending = true then
    match res with
    | none => cb
    | some (.ok content) =>
      { cb with
        pending := false
        messages := cb.messages ++ [(Role.Assistant, content)]
        pending_command := parse_command content }
    | some (.error e) =>
      { cb with
        pending := false
        messages := cb.messages ++ [(Role.System, "LLM error: " ++ e)] }
  else cb

/-- Resize directions: the `"smaller"` and `"larger"` buttons. -/
inductive ResizeDir where
  | Shrink
  | Grow
  deriving DecidableEq

/-- The `Clicked("smaller")` and `Clicked("larger")` branches of
`Chatbox::event`: width and height percentages move by 5, width clamped to
`[15, 50]` and height to `[15, 60]` (Nat subtraction is saturating, like
Rust `saturating_sub`). -/
def resize (cb : Chatbox) : ResizeDir → Chatbox
  | .Shrink =>
    { cb with
      width_pct := max (cb.width_pct - 5) 15
      height_pct := max (cb.height_pct - 5) 15 }
  | .Grow =>
    { cb with
      width_pct := min (cb.width_pct + 5) 50
      height_pct := min (cb.height_pct + 5) 60 }

/-- `Chatbox::take_command`: `self.pending_command.take()`. -/
def take_command (cb : Chatbox) : Option ChatCommand × Chatbox :=
  (cb.pending_command, { cb with pending_command := none })

end AbstChat

namespace AbstChat

/-! ## Theorems about the text buffer -/

/-- Each single editing operation preserves the cursor bound. -/
lemma applyOp_cursor_le (b : MultilineTextBox) (op : EditOp)
    (h : b.cursor_x ≤ b.text.length) :
    (applyOp b op).cursor_x ≤ (applyOp b op).text.length := by
  cases op with
  | insertChar c =>
    simp only [applyOp, insertChar]
    rw [List.length_insertIdx _ _ h]
    omega
  | insertNewline =>
    simp only [applyOp, insertNewline]
    rw [List.length_insertIdx _ _ h]
    omega
  | deleteBackward =>
    simp only [applyOp, deleteBackward]
    by_cases hc : 0 < b.cursor_x
    · rw [if_pos hc]
      simp only
      rw [List.length_eraseIdx_of_lt (by omega)]
      omega
    · rw [if_neg hc]
      exact h
  | moveLeft =>
    simp only [applyOp, moveLeft]
    by_cases hc : 0 < b.cursor_x
    · rw [if_pos hc]
      simp only
      omega
    · rw [if_neg hc]
      exact h
  | moveRight =>
    simp only [applyOp, moveRight]
    omega

/-- Folding any operation list preserves the cursor bound. -/
lemma applyOps_cursor_le (b : MultilineTextBox) (ops : List EditOp)
    (h : b.cursor_x ≤ b.text.length) :
    (applyOps b ops).cursor_x ≤ (applyOps b ops).text.length := by
  induction ops generalizing b with
  | nil => exact h
  | cons op rest ih =>
    simpa [applyOps, List.foldl_cons] using
      ih (applyOp b op) (applyOp_cursor_le b op h)

/-- Claim C3: for every sequence of TextEditBuffer operations applied from a
state satisfying the cursor invariant, `0 ≤ cursor ≤ length(content)` holds
after every operation, i.e. after every prefix of the sequence. -/
theorem cursor_invariant_every_step (b : MultilineTextBox) (ops : List EditOp)
    (h : b.cursor_x ≤ b.text.length) (n : Nat) :
    0 ≤ (applyOps b (ops.take n)).cursor_x ∧
    (applyOps b (ops.take n)).cursor_x ≤ (applyOps b (ops.take n)).text.length :=
  ⟨Nat.zero_le _, applyOps_cursor_le b (ops.take n) h⟩

/-- Concrete instance of the cursor invariant theorem. -/
theorem cursor_invariant_every_step_witness :
    0 ≤ (applyOps (mkMultilineTextBox ['h', 'i'])
        ([EditOp.moveLeft, EditOp.deleteBackward, EditOp.insertChar 'x'].take 2)).cursor_x ∧
    (applyOps (mkMultilineTextBox ['h', 'i'])
        ([EditOp.moveLeft, EditOp.deleteBackward, EditOp.insertChar 'x'].take 2)).cursor_x ≤
      (applyOps (mkMultilineTextBox ['h', 'i'])
        ([EditOp.moveLeft, EditOp.deleteBackward, EditOp.insertChar 'x'].take 2)).text.length :=
  cursor_invariant_every_step (mkMultilineTextBox ['h', 'i'])
    [EditOp.moveLeft, EditOp.deleteBackward, EditOp.insertChar 'x'] (by decide) 2

/-- Claim C8: from the empty buffer, inserting a, b, c and deleting backward
twice yields content "a" with the cursor at 1. -/
theorem insert_abc_delete_twice :
    applyOps (mkMultilineTextBox [])
      [EditOp.insertChar 'a', EditOp.insertChar 'b', EditOp.insertChar 'c',
       EditOp.deleteBackward, EditOp.deleteBackward] =
    { text := ['a'], cursor_x := 1 } := by
  decide

/-- Claim C9: construction with prefilled content puts the cursor at the end
of that content, the invariant holds initially, and a subsequent insertion
appends after the prefilled text. -/
theorem prefilled_cursor_at_end (prefilled : List Char) (c : Char) :
    (mkMultilineTextBox prefilled).text = prefilled ∧
    (mkMultilineTextBox prefilled).cursor_x = (mkMultilineTextBox prefilled).text.length ∧
    insertChar (mkMultilineTextBox prefilled) c =
      { text := prefilled ++ [c], cursor_x := prefilled.length + 1 } := by
  refine ⟨rfl, rfl, ?_⟩
  simp only [insertChar, mkMultilineTextBox]
  rw [List.insertIdx_length_self]

/-- Claim C10: building the display string is total and read-only: the state
is unchanged (so `get_text` still returns the stored content, without the
glyph insertion), the glyph lands at the cursor offset when in range and at
the end otherwise, and the display string always has exactly one extra
character. -/
theorem calculate_text_total_readonly (b : MultilineTextBox) :
    (calculate_text b).2 = b ∧
    get_text (calculate_text b).2 = b.text ∧
    (calculate_text b).1 =
      (if b.cursor_x ≤ b.text.length
        then b.text.insertIdx b.cursor_x '|'
        else b.text ++ ['|']) ∧
    ((calculate_text b).1).length = b.text.length + 1 := by
  refine ⟨rfl, rfl, rfl, ?_⟩
  simp only [calculate_text]
  by_cases h : b.cursor_x ≤ b.text.length
  · rw [if_pos h, List.length_insertIdx _ _ h]
  · rw [if_neg h, List.length_append, List.length_cons, List.length_nil]

end AbstChat

namespace AbstChat

/-! ## Theorems about the chat controller -/

/-- Claim C4: `submit` while a request is pending is a no-op: the whole
state (messages, mailbox, pending slot, input buffer, percentages) is
unchanged and no worker is spawned. -/
theorem submit_while_pending_noop (cb : Chatbox) (h : cb.pending = true) :
    (submit cb).1.messages = cb.messages ∧
    (submit cb).1.pending_command = cb.pending_command ∧
    (submit cb).1.pending = cb.pending ∧
    (submit cb).1.input_prefill = cb.input_prefill ∧
    (submit cb).1.width_pct = cb.width_pct ∧
    (submit cb).1.height_pct = cb.height_pct ∧
    (submit cb).2 = none ∧
    submit cb = (cb, none) := by
  have hs : submit cb = (cb, none) := by
    unfold submit
    rw [if_pos (Or.inr h)]
  rw [hs]
  exact ⟨rfl, rfl, rfl, rfl, rfl, rfl, rfl, rfl⟩

/-- Concrete instance of the pending-submit no-op theorem. -/
theorem submit_while_pending_noop_witness :
    submit { initChatbox with pending := true } =
      ({ initChatbox with pending := true }, none) :=
  (submit_while_pending_noop { initChatbox with pending := true } rfl).2.2.2.2.2.2.2

/-- Claim C5: a failure observed by the completion poll appends exactly one
System message describing the error, clears the pending slot, and leaves the
mailbox untouched; submitting "hello" with no credential ends with
`User "hello"` then `System "LLM error: Missing DEEPSEEK_API_KEY env var"`
appended and an empty mailbox. -/
theorem poll_failure_spec (cb : Chatbox) (e : String)
    (net : List DeepseekMessage → Except String (List String))
    (h : cb.pending = true) :
    (pollCompletion cb (some (Except.error e)) =
      { cb with
        pending := false
        messages := cb.messages ++ [(Role.System, "LLM error: " ++ e)] }) ∧
    (pollCompletion cb (some (Except.error e))).pending_command = cb.pending_command ∧
    (fetch_deepseek_reply none net
        ((submit { initChatbox with input_prefill := "hello" }).1.messages) "hello" =
      Except.error "Missing DEEPSEEK_API_KEY env var") ∧
    ((pollCompletion (submit { initChatbox with input_prefill := "hello" }).1
        (some (fetch_deepseek_reply none net
          ((submit { initChatbox with input_prefill := "hello" }).1.messages) "hello"))).messages =
      initChatbox.messages ++
        [(Role.User, "hello"),
         (Role.System, "LLM error: Missing DEEPSEEK_API_KEY env var")]) ∧
    ((pollCompletion (submit { initChatbox with input_prefill := "hello" }).1
        (some (fetch_deepseek_reply none net
          ((submit { initChatbox with input_prefill := "hello" }).1.messages) "hello"))).pending_command =
      none) := by
  have hgen : pollCompletion cb (some (Except.error e)) =
      { cb with
        pending := false
        messages := cb.messages ++ [(Role.System, "LLM error: " ++ e)] } := by
    unfold pollCompletion
    rw [if_pos h]
  have hfetch : fetch_deepseek_reply none net
      ((submit { initChatbox with input_prefill := "hello" }).1.messages) "hello" =
      Except.error "Missing DEEPSEEK_API_KEY env var" := rfl
  refine ⟨hgen, by rw [hgen], hfetch, ?_, ?_⟩ <;> rw [hfetch] <;> decide

/-- Concrete instance of the poll-failure theorem. -/
theorem poll_failure_spec_witness :
    pollCompletion { initChatbox with pending := true } (some (Except.error "boom")) =
      { initChatbox with
        pending := false
        messages := initChatbox.messages ++ [(Role.System, "LLM error: " ++ "boom")] } :=
  (poll_failure_spec { initChatbox with pending := true } "boom"
    (fun _ => Except.error "") rfl).1

/-- Claim C6: `resize` moves width and height by a step of 5, independently
clamped to `[15, 50]` and `[15, 60]`; shrinking strictly decreases above the
floor, growing strictly increases below the ceiling; and ten shrinks from
35/35 settle at 15/15 without ever going below. -/
theorem resize_spec (cb : Chatbox)
    (hw1 : 15 ≤ cb.width_pct) (hw2 : cb.width_pct ≤ 50)
    (hh1 : 15 ≤ cb.height_pct) (hh2 : cb.height_pct ≤ 60) :
    ((resize cb ResizeDir.Shrink).width_pct = max (cb.width_pct - 5) 15 ∧
     (resize cb ResizeDir.Shrink).height_pct = max (cb.height_pct - 5) 15 ∧
     (resize cb ResizeDir.Grow).width_pct = min (cb.width_pct + 5) 50 ∧
     (resize cb ResizeDir.Grow).height_pct = min (cb.height_pct + 5) 60) ∧
    (∀ d, 15 ≤ (resize cb d).width_pct ∧ (resize cb d).width_pct ≤ 50 ∧
          15 ≤ (resize cb d).height_pct ∧ (resize cb d).height_pct ≤ 60) ∧
    (15 < cb.width_pct → (resize cb ResizeDir.Shrink).width_pct < cb.width_pct) ∧
    (cb.width_pct < 50 → cb.width_pct < (resize cb ResizeDir.Grow).width_pct) ∧
    (15 < cb.height_pct → (resize cb ResizeDir.Shrink).height_pct < cb.height_pct) ∧
    (cb.height_pct < 60 → cb.height_pct < (resize cb ResizeDir.Grow).height_pct) ∧
    ((fun s => resize s ResizeDir.Shrink)^[10] initChatbox).width_pct = 15 ∧
    ((fun s => resize s ResizeDir.Shrink)^[10] initChatbox).height_pct = 15 ∧
    (∀ n < 11, 15 ≤ ((fun s => resize s ResizeDir.Shrink)^[n] initChatbox).width_pct ∧
               15 ≤ ((fun s => resize s ResizeDir.Shrink)^[n] initChatbox).height_pct) := by
  refine ⟨⟨rfl, rfl, rfl, rfl⟩, ?_, ?_, ?_, ?_, ?_, by decide, by decide, by decide⟩
  · intro d
    cases d <;> (simp only [resize]; omega)
  all_goals (simp only [resize]; omega)

/-- Concrete instance of the resize theorem. -/
theorem resize_spec_witness :
    (resize initChatbox ResizeDir.Shrink).width_pct =
      max (initChatbox.width_pct - 5) 15 :=
  (resize_spec initChatbox (by decide) (by decide) (by decide) (by decide)).1.1

/-- Claim C7: `take_command` returns the mailbox contents and clears the
mailbox, so a second call with no intervening parse returns nothing. -/
theorem take_command_drain (cb : Chatbox) :
    (take_command cb).1 = cb.pending_command ∧
    (take_command cb).2 = { cb with pending_command := none } ∧
    ((take_command cb).2).pending_command = none ∧
    (take_command ((take_command cb).2)).1 = none :=
  ⟨rfl, rfl, rfl, rfl⟩

end AbstChat

namespace AbstChat

/-- A chat state holding ten prior messages, with "hello" typed in the
input buffer. -/
def cbTenExample : Chatbox :=
  { initChatbox with
    messages := [(Role.User, "m0"), (Role.Assistant, "m1"), (Role.User, "m2"),
      (Role.Assistant, "m3"), (Role.User, "m4"), (Role.Assistant, "m5"),
      (Role.User, "m6"), (Role.Assistant, "m7"), (Role.User, "m8"),
      (Role.Assistant, "m9")]
    input_prefill := "hello" }

/-- The request list predicted for `cbTenExample` by the reading in which
the context window covers the history before the new User message and the
new message appears only once at the end. -/
def claimedListTen : List DeepseekMessage :=
  [⟨"system", systemPrompt⟩]
    ++ ((cbTenExample.messages.reverse.take 8).reverse.map fun rc => ⟨roleStr rc.1, rc.2⟩)
    ++ [⟨"user", "hello"⟩]

/-- Claim C1 fails on the code: with ten prior messages the spawned worker
builds a list of 10 entries, but the new message occurs twice in it (once
inside the context window, once appended), and the list differs from the
predicted one, which holds the last 8 of the prior history and the new
message only once. -/
theorem submit_request_list_counterexample :
    (submit cbTenExample).2 =
      some (buildRequestMessages (cbTenExample.messages ++ [(Role.User, "hello")]) "hello") ∧
    (buildRequestMessages (cbTenExample.messages ++ [(Role.User, "hello")]) "hello").length
      = 10 ∧
    (buildRequestMessages (cbTenExample.messages ++ [(Role.User, "hello")])
        "hello").count ⟨"user", "hello"⟩ = 2 ∧
    buildRequestMessages (cbTenExample.messages ++ [(Role.User, "hello")]) "hello"
      ≠ claimedListTen := by
  decide

/-- Claim C1 as amended: an accepted submission spawns exactly one worker
whose request list is the fixed system instruction, then the last 8 entries
of the history as it is after the new User message was appended, then the
new message once more, so the new message occurs at least twice; with ten
prior messages the list still has exactly 10 entries. -/
theorem submit_request_list (cb : Chatbox)
    (h1 : trimStr cb.input_prefill ≠ "") (h2 : cb.pending = false) :
    (submit cb).2 =
      some (buildRequestMessages
        (cb.messages ++ [(Role.User, trimStr cb.input_prefill)])
        (trimStr cb.input_prefill)) ∧
    ∀ L, (submit cb).2 = some L →
      L = [⟨"system", systemPrompt⟩]
        ++ (((cb.messages ++ [(Role.User, trimStr cb.input_prefill)]).reverse.take 8).reverse.map
              fun rc => ⟨roleStr rc.1, rc.2⟩)
        ++ [⟨"user", trimStr cb.input_prefill⟩] ∧
      2 ≤ L.count ⟨"user", trimStr cb.input_prefill⟩ ∧
      (cb.messages.length = 10 → L.length = 10) := by
  have hcond : ¬(trimStr cb.input_prefill = "" ∨ cb.pending = true) := by
    rintro (hc | hc)
    · exact h1 hc
    · rw [h2] at hc
      exact Bool.false_ne_true hc
  have hsub : (submit cb).2 =
      some (buildRequestMessages
        (cb.messages ++ [(Role.User, trimStr cb.input_prefill)])
        (trimStr cb.input_prefill)) := by
    unfold submit
    rw [if_neg hcond]
  refine ⟨hsub, ?_⟩
  intro L hL
  rw [hsub] at hL
  have hLeq := Option.some.inj hL
  subst hLeq
  set t := trimStr cb.input_prefill with ht
  have hwin : ((cb.messages ++ [(Role.User, t)]).reverse.take 8).reverse.map
        (fun rc : Role × String => (⟨roleStr rc.1, rc.2⟩ : DeepseekMessage))
      = ((cb.messages.reverse.take 7).reverse.map
          fun rc : Role × String => (⟨roleStr rc.1, rc.2⟩ : DeepseekMessage))
        ++ [⟨"user", t⟩] := by
    simp [List.reverse_append, List.take_succ_cons, List.reverse_cons, roleStr]
  refine ⟨rfl, ?_, ?_⟩
  · simp only [buildRequestMessages, hwin, List.count_append]
    simp [List.count_cons, List.count_singleton]
  · intro h10
    simp only [buildRequestMessages, List.length_append, List.length_map,
      List.length_reverse, List.length_take, h10]
    simp only [List.length_cons, List.length_nil]
    omega

/-- Concrete instance of the amended request-list theorem. -/
theorem submit_request_list_witness :
    (submit cbTenExample).2 =
      some (buildRequestMessages
        (cbTenExample.messages ++ [(Role.User, trimStr cbTenExample.input_prefill)])
        (trimStr cbTenExample.input_prefill)) :=
  (submit_request_list cbTenExample (by decide) rfl).1

end AbstChat

namespace AbstChat

/-- Every char list splits as whitespace prefix, trimmed core, whitespace
suffix. -/
lemma trimList_split (l : List Char) :
    l = l.takeWhile Char.isWhitespace ++ trimList l
      ++ ((l.dropWhile Char.isWhitespace).reverse.takeWhile Char.isWhitespace).reverse := by
  conv_lhs => rw [← List.takeWhile_append_dropWhile Char.isWhitespace l]
  rw [List.append_assoc]
  congr 1
  conv_lhs => rw [← List.reverse_reverse (l.dropWhile Char.isWhitespace),
    ← List.takeWhile_append_dropWhile Char.isWhitespace
      (l.dropWhile Char.isWhitespace).reverse,
    List.reverse_append]
  rfl

/-- Every character of a string is whitespace or a character of its trim. -/
lemma mem_trim_or_whitespace (s t : String) (h : trimStr s = t) (c : Char)
    (hc : c ∈ s.data) : Char.isWhitespace c ∨ c ∈ t.data := by
  have hd : trimList s.data = t.data := by
    rw [← h]
    rfl
  rw [trimList_split s.data] at hc
  simp only [List.mem_append] at hc
  rcases hc with (hc | hc) | hc
  · exact Or.inl (List.mem_takeWhile_imp hc)
  · rw [hd] at hc
    exact Or.inr hc
  · rw [List.mem_reverse] at hc
    exact Or.inl (List.mem_takeWhile_imp hc)

/-- A contained pattern only uses characters of the containing string. -/
lemma mem_of_containsStr (s pat : String) (h : containsStr s pat = true) (c : Char)
    (hc : c ∈ pat.data) : c ∈ s.data := by
  have hi : List.IsInfix pat.data s.data := of_decide_eq_true h
  exact hi.subset hc

end AbstChat

namespace AbstChat

/-- Claim C2: `parse_command` lower-cases the reply and checks the pause
markers first (contains "action: pause", trimmed text equal to "pause", or
contains "/pause"), then the resume markers (contains "action: resume",
trimmed text equal to "resume", contains "/resume" or "/play"), and yields
nothing otherwise; hence a reply matching both families is Pause, and a
reply whose trimmed lower-cased form is exactly "resume" yields Resume. -/
theorem parse_command_spec (r : String) :
    ((containsStr (toLowerStr r) "action: pause"
        || (trimStr (toLowerStr r) == "pause")
        || containsStr (toLowerStr r) "/pause") = true →
      parse_command r = some ChatCommand.Pause) ∧
    ((containsStr (toLowerStr r) "action: pause"
        || (trimStr (toLowerStr r) == "pause")
        || containsStr (toLowerStr r) "/pause") = false →
      (containsStr (toLowerStr r) "action: resume"
        || (trimStr (toLowerStr r) == "resume")
        || containsStr (toLowerStr r) "/resume"
        || containsStr (toLowerStr r) "/play") = true →
      parse_command r = some ChatCommand.Resume) ∧
    ((containsStr (toLowerStr r) "action: pause"
        || (trimStr (toLowerStr r) == "pause")
        || containsStr (toLowerStr r) "/pause") = false →
      (containsStr (toLowerStr r) "action: resume"
        || (trimStr (toLowerStr r) == "resume")
        || containsStr (toLowerStr r) "/resume"
        || containsStr (toLowerStr r) "/play") = false →
      parse_command r = none) ∧
    (trimStr (toLowerStr r) = "resume" → parse_command r = some ChatCommand.Resume) := by
  refine ⟨?_, ?_, ?_, ?_⟩
  · intro hp
    simp [parse_command, hp]
  · intro hp hq
    simp [parse_command, hp, hq]
  · intro hp hq
    simp [parse_command, hp, hq]
  · intro ht
    have h1 : containsStr (toLowerStr r) "action: pause" = false := by
      cases hx : containsStr (toLowerStr r) "action: pause" with
      | false => rfl
      | true =>
        have hm := mem_of_containsStr _ _ hx ':' (by decide)
        rcases mem_trim_or_whitespace (toLowerStr r) "resume" ht ':' hm with hw | hw
        · exact absurd hw (by decide)
        · exact absurd hw (by decide)
    have h2 : (trimStr (toLowerStr r) == "pause") = false := by
      rw [ht]
      decide
    have h3 : containsStr (toLowerStr r) "/pause" = false := by
      cases hx : containsStr (toLowerStr r) "/pause" with
      | false => rfl
      | true =>
        have hm := mem_of_containsStr _ _ hx '/' (by decide)
        rcases mem_trim_or_whitespace (toLowerStr r) "resume" ht '/' hm with hw | hw
        · exact absurd hw (by decide)
        · exact absurd hw (by decide)
    have h4 : (trimStr (toLowerStr r) == "resume") = true := by
      rw [ht]
      decide
    simp [parse_command, h1, h2, h3, h4]

/-- Concrete instance of the `parse_command` theorem: scenario D. -/
theorem parse_command_spec_witness :
    parse_command "  ReSuMe " = some ChatCommand.Resume :=
  (parse_command_spec "  ReSuMe ").2.2.2 (by decide)

end AbstChat
